import Mathlib

/-!
Shallow embedding of the n8n workspace quality orchestrator
(`scripts/lint-quality.mjs`, modelled from `src/unnamed/part_000`) and the
quality gate (`scripts/quality-gate.mjs`).

Modelling conventions:
* JavaScript numbers are modelled as exact rationals extended with the IEEE
  special values `NaN`, `Infinity` and `-Infinity` (`JSNum`).  Binary
  floating-point rounding error is abstracted away; the signed zero
  distinction is not observable by any modelled computation.
* File-system and subprocess effects are passed explicitly: the persisted
  report file is a `ReportStore` value, the discovery cache is a
  `CacheFile` value, and each external tool invocation is an
  `Except Unit String` outcome (`error` = non-zero exit or timeout,
  `ok` = the combined text output).
* Wall-clock fields (`timestamp`, `performance`, per-package `duration`)
  are not modelled; no verified property depends on them.
-/

/-- A JavaScript number: an exact rational or one of the IEEE special
values produced by JavaScript arithmetic (0/0 is NaN, x/0 is a signed
infinity for x not 0). -/
inductive JSNum where
  | nan : JSNum
  | posInf : JSNum
  | negInf : JSNum
  | num (q : ℚ) : JSNum
deriving DecidableEq, Repr

/-- JavaScript subtraction lifted to `JSNum`. -/
def jsSub : JSNum → JSNum → JSNum
  | JSNum.nan, _ => JSNum.nan
  | _, JSNum.nan => JSNum.nan
  | JSNum.num a, JSNum.num b => JSNum.num (a - b)
  | JSNum.num _, JSNum.posInf => JSNum.negInf
  | JSNum.num _, JSNum.negInf => JSNum.posInf
  | JSNum.posInf, JSNum.num _ => JSNum.posInf
  | JSNum.negInf, JSNum.num _ => JSNum.negInf
  | JSNum.posInf, JSNum.posInf => JSNum.nan
  | JSNum.posInf, JSNum.negInf => JSNum.posInf
  | JSNum.negInf, JSNum.posInf => JSNum.negInf
  | JSNum.negInf, JSNum.negInf => JSNum.nan

/-- JavaScript multiplication lifted to `JSNum`. -/
def jsMul : JSNum → JSNum → JSNum
  | JSNum.nan, _ => JSNum.nan
  | _, JSNum.nan => JSNum.nan
  | JSNum.num a, JSNum.num b => JSNum.num (a * b)
  | JSNum.posInf, JSNum.num b =>
      if b = 0 then JSNum.nan else if 0 < b then JSNum.posInf else JSNum.negInf
  | JSNum.negInf, JSNum.num b =>
      if b = 0 then JSNum.nan else if 0 < b then JSNum.negInf else JSNum.posInf
  | JSNum.num a, JSNum.posInf =>
      if a = 0 then JSNum.nan else if 0 < a then JSNum.posInf else JSNum.negInf
  | JSNum.num a, JSNum.negInf =>
      if a = 0 then JSNum.nan else if 0 < a then JSNum.negInf else JSNum.posInf
  | JSNum.posInf, JSNum.posInf => JSNum.posInf
  | JSNum.posInf, JSNum.negInf => JSNum.negInf
  | JSNum.negInf, JSNum.posInf => JSNum.negInf
  | JSNum.negInf, JSNum.negInf => JSNum.posInf

/-- JavaScript division lifted to `JSNum`: `0/0` is NaN and `x/0` for a
nonzero finite `x` is a signed infinity (the positive-zero divisor case of
the source). -/
def jsDiv : JSNum → JSNum → JSNum
  | JSNum.nan, _ => JSNum.nan
  | _, JSNum.nan => JSNum.nan
  | JSNum.num a, JSNum.num b =>
      if b = 0 then
        if a = 0 then JSNum.nan else if 0 < a then JSNum.posInf else JSNum.negInf
      else JSNum.num (a / b)
  | JSNum.num _, JSNum.posInf => JSNum.num 0
  | JSNum.num _, JSNum.negInf => JSNum.num 0
  | JSNum.posInf, JSNum.num b => if 0 ≤ b then JSNum.posInf else JSNum.negInf
  | JSNum.negInf, JSNum.num b => if 0 ≤ b then JSNum.negInf else JSNum.posInf
  | JSNum.posInf, JSNum.posInf => JSNum.nan
  | JSNum.posInf, JSNum.negInf => JSNum.nan
  | JSNum.negInf, JSNum.posInf => JSNum.nan
  | JSNum.negInf, JSNum.negInf => JSNum.nan

/-- JavaScript `Math.min` on two arguments (NaN absorbs). -/
def jsMin : JSNum → JSNum → JSNum
  | JSNum.nan, _ => JSNum.nan
  | _, JSNum.nan => JSNum.nan
  | JSNum.num a, JSNum.num b => JSNum.num (min a b)
  | JSNum.num _, JSNum.negInf => JSNum.negInf
  | JSNum.num a, JSNum.posInf => JSNum.num a
  | JSNum.negInf, _ => JSNum.negInf
  | JSNum.posInf, x => x

/-- JavaScript `Math.max` on two arguments (NaN absorbs). -/
def jsMax : JSNum → JSNum → JSNum
  | JSNum.nan, _ => JSNum.nan
  | _, JSNum.nan => JSNum.nan
  | JSNum.num a, JSNum.num b => JSNum.num (max a b)
  | JSNum.num a, JSNum.negInf => JSNum.num a
  | JSNum.num _, JSNum.posInf => JSNum.posInf
  | JSNum.negInf, x => x
  | JSNum.posInf, _ => JSNum.posInf

/-- Round-half-up on rationals: `JavaScript Math.round` for finite inputs. -/
def roundHalfUp (q : ℚ) : ℤ := ⌊q + 1 / 2⌋

/-- JavaScript `Math.round` lifted to `JSNum`. -/
def jsRound : JSNum → JSNum
  | JSNum.nan => JSNum.nan
  | JSNum.posInf => JSNum.posInf
  | JSNum.negInf => JSNum.negInf
  | JSNum.num q => JSNum.num ((roundHalfUp q : ℤ) : ℚ)

/-- JavaScript `Math.round` of a nonnegative finite value, as a natural
number (used where the source stores the rounded value in a count field). -/
def jsRoundNat (q : ℚ) : ℕ := (roundHalfUp q).toNat

/-- JavaScript truthiness of a number: `0` and `NaN` are falsy. -/
def jsTruthy : JSNum → Bool
  | JSNum.nan => false
  | JSNum.num q => decide (q ≠ 0)
  | JSNum.posInf => true
  | JSNum.negInf => true

/-- JavaScript `a || b` on numbers: `b` when `a` is falsy. -/
def jsOr (a b : JSNum) : JSNum := if jsTruthy a then a else b

/-- JavaScript `>=` on numbers: any comparison involving NaN is false. -/
def jsGe : JSNum → JSNum → Bool
  | JSNum.nan, _ => false
  | _, JSNum.nan => false
  | JSNum.num a, JSNum.num b => decide (b ≤ a)
  | JSNum.posInf, _ => true
  | _, JSNum.posInf => false
  | JSNum.negInf, JSNum.negInf => true
  | JSNum.negInf, JSNum.num _ => false
  | JSNum.num _, JSNum.negInf => true

/-- Whether a `JSNum` is an actual (finite) number lying in `[lo, hi]`. -/
def JSNum.isRealIn : JSNum → ℚ → ℚ → Bool
  | JSNum.num q, lo, hi => decide (lo ≤ q) && decide (q ≤ hi)
  | _, _, _ => false

/-- List-of-characters test that `pat` occurs as a prefix of `l`
(helper for the JavaScript substring test). -/
def listIsPre : List Char → List Char → Bool
  | [], _ => true
  | _ :: _, [] => false
  | a :: as, b :: bs => a == b && listIsPre as bs

/-- List-of-characters test that `pat` occurs contiguously somewhere in the
second list (helper for the JavaScript substring test). -/
def listInf (pat : List Char) : List Char → Bool
  | [] => listIsPre pat []
  | l => listIsPre pat l ||
      match l with
      | [] => false
      | _ :: rest => listInf pat rest

/-- JavaScript `s.includes(pat)`: case-sensitive contiguous substring test. -/
def jsIncludes (s pat : String) : Bool := listInf pat.toList s.toList

/-- JavaScript `output.split(newline)` on the character list: splits at
every newline, keeping empty segments. -/
def splitOnNl : List Char → List (List Char)
  | [] => [[]]
  | c :: cs =>
      if c = '\n' then [] :: splitOnNl cs
      else
        match splitOnNl cs with
        | [] => [[c]]
        | l :: ls => (c :: l) :: ls

/-- Embeds `parseESLintOutput`: splits the tool output on newlines and, for
each line, increments the error counter when the line contains the
substring for errors and the warning counter when it contains the substring
for warnings (at most one increment per counter per line). -/
def parseESLintOutput (output : String) : ℕ × ℕ :=
  let lines := splitOnNl output.toList
  lines.foldl
    (fun acc line =>
      let errors := if listInf (String.toList ("error")) line then acc.1 + 1 else acc.1
      let warnings := if listInf (String.toList ("warning")) line then acc.2 + 1 else acc.2
      (errors, warnings))
    (0, 0)

/-- A discovered lintable package as recorded by `getLintablePackages`. -/
structure Package where
  name : String
  pkgPath : String
  lastModified : ℕ
  hasTypescript : Bool
  hasTests : Bool
  isPrivate : Bool
  size : ℕ
deriving DecidableEq, Repr

/-- Outcome status of one package analysis. -/
inductive LintStatus where
  | success : LintStatus
  | failed : LintStatus
deriving DecidableEq, Repr

/-- One package analysis result as stored in `packageResults` (the
wall-clock `duration` field of the source is not modelled). -/
structure CheckResult where
  errors : ℕ
  warnings : ℕ
  status : LintStatus
deriving DecidableEq, Repr

/-- The mutable metrics record of the `QualityMetrics` class
(`this.metrics`); `timestamp` and `performance` are wall-clock fields and
are not modelled.  `packageResults` is the JavaScript object keyed by
package name, modelled as an association list with the most recent
assignment at the head. -/
structure QualityMetrics where
  totalPackages : ℕ
  lintedPackages : ℕ
  errors : ℕ
  warnings : ℕ
  packageResults : List (String × CheckResult)
  qualityScore : JSNum
  previousScore : JSNum
deriving DecidableEq, Repr

/-- State of the persisted quality report file: `none` when the file does
not exist, `some none` when it exists but cannot be parsed, and
`some (some report)` when it deserializes to a previous run report. -/
abbrev ReportStore : Type := Option (Option QualityMetrics)

/-- Embeds `QualityMetrics.loadPreviousScore`: the previous persisted
quality score, or 0 when the report file is missing or unreadable (the
`report.qualityScore || 0` fallback is JavaScript truthiness). -/
def loadPreviousScore (store : ReportStore) : JSNum :=
  match store with
  | none => JSNum.num 0
  | some none => JSNum.num 0
  | some (some report) => jsOr report.qualityScore (JSNum.num 0)

/-- Embeds the `QualityMetrics` constructor: fresh counters, a zero
quality score, and `previousScore` loaded from the persisted report file
at construction time. -/
def initMetrics (store : ReportStore) : QualityMetrics :=
  { totalPackages := 0
    lintedPackages := 0
    errors := 0
    warnings := 0
    packageResults := []
    qualityScore := JSNum.num 0
    previousScore := loadPreviousScore store }

/-- Embeds `QualityMetrics.addPackageResult`: stores the result under the
package name and bumps the running error/warning totals and the linted
package counter. -/
def addPackageResult (m : QualityMetrics) (packageName : String) (result : CheckResult) :
    QualityMetrics :=
  { m with
    packageResults := (packageName, result) :: m.packageResults
    errors := m.errors + result.errors
    warnings := m.warnings + result.warnings
    lintedPackages := m.lintedPackages + 1 }

/-- Embeds `QualityMetrics.calculateQualityScore`:
`Math.round(Math.max(0, Math.min(100, 100 - (totalIssues / maxIssues) * 100)) * 100) / 100`
with `totalIssues = errors + warnings` and
`maxIssues = lintedPackages * 10`. -/
def calculateQualityScore (m : QualityMetrics) : JSNum :=
  let totalIssues : ℕ := m.errors + m.warnings
  let maxIssues : ℕ := m.lintedPackages * 10
  let score := jsMax (JSNum.num 0) (jsMin (JSNum.num 100)
    (jsSub (JSNum.num 100)
      (jsMul (jsDiv (JSNum.num (totalIssues : ℚ)) (JSNum.num (maxIssues : ℚ))) (JSNum.num 100))))
  jsDiv (jsRound (jsMul score (JSNum.num 100))) (JSNum.num 100)

/-- Embeds `QualityMetrics.finalize` (minus wall-clock bookkeeping): the
quality score is computed and stored; the report-file write is modelled
separately by `runOnce`. -/
def finalizeMetrics (m : QualityMetrics) : QualityMetrics :=
  { m with qualityScore := calculateQualityScore m }

/-- Size weight of `categorizePackages`: 2 above 1,000,000 bytes, 1 above
500,000 bytes, otherwise 0. -/
def sizeWeight (pkg : Package) : ℕ :=
  if pkg.size > 1000000 then 2 else if pkg.size > 500000 then 1 else 0

/-- Complexity weight of `categorizePackages`: +1 for a TypeScript
configuration, +1 for a test command. -/
def complexityWeight (pkg : Package) : ℕ :=
  (if pkg.hasTypescript then 1 else 0) + (if pkg.hasTests then 1 else 0)

/-- Name weight of `categorizePackages`: 2 for the critical names, else 1
for the important names, else 0. -/
def nameWeight (pkg : Package) : ℕ :=
  if jsIncludes pkg.name ("nodes-base") || pkg.name == "n8n" || jsIncludes pkg.name ("editor-ui")
  then 2
  else if jsIncludes pkg.name ("core") || jsIncludes pkg.name ("cli") ||
      jsIncludes pkg.name ("design-system")
  then 1
  else 0

/-- Total weight of a package in `categorizePackages`. -/
def totalWeight (pkg : Package) : ℕ :=
  sizeWeight pkg + complexityWeight pkg + nameWeight pkg

/-- Stable insertion of a package into a size-descending list (helper for
the `packages.sort((a, b) => b.size - a.size)` call; ES2019 sorts are
stable, and a stable sort is determined by its comparator). -/
def insertBySize (pkg : Package) : List Package → List Package
  | [] => [pkg]
  | q :: qs => if pkg.size ≥ q.size then pkg :: q :: qs else q :: insertBySize pkg qs

/-- Stable size-descending sort used by `categorizePackages`. -/
def sortBySizeDesc : List Package → List Package
  | [] => []
  | p :: ps => insertBySize p (sortBySizeDesc ps)

/-- The bucketing loop of `categorizePackages`: weight at least 4 goes to
the heavy list, weight at least 2 to the medium list, the rest to the
light list, preserving the traversal order. -/
def bucketPackages : List Package → List Package × List Package × List Package
  | [] => ([], [], [])
  | pkg :: rest =>
      let (heavy, medium, light) := bucketPackages rest
      if totalWeight pkg ≥ 4 then (pkg :: heavy, medium, light)
      else if totalWeight pkg ≥ 2 then (heavy, pkg :: medium, light)
      else (heavy, medium, pkg :: light)

/-- Embeds `categorizePackages`: sort by size descending, then assign each
package to exactly one of the heavy/medium/light tiers by total weight. -/
def categorizePackages (packages : List Package) :
    List Package × List Package × List Package :=
  bucketPackages (sortBySizeDesc packages)

/-- Outcomes of the external `turbo run lint` invocations of one run:
one outcome per heavy package, one for the medium batch, one for the light
batch.  `Except.error` is a non-zero exit or timeout; `Except.ok` carries
the combined text output. -/
structure LintEnv where
  heavy : Package → Except Unit String
  medium : Except Unit String
  light : Except Unit String

/-- Result recorded for one heavy-tier package: parsed output counts on
success, `1 error / 0 warnings / failed` when the invocation throws. -/
def heavyResult (env : LintEnv) (pkg : Package) : CheckResult :=
  match env.heavy pkg with
  | Except.ok output =>
      let r := parseESLintOutput output
      { errors := r.1, warnings := r.2, status := LintStatus.success }
  | Except.error _ => { errors := 1, warnings := 0, status := LintStatus.failed }

/-- Records one result per package of `batch`, in order (the shape shared
by the heavy loop and the medium/light `forEach` calls). -/
def addResultsFor (f : Package → CheckResult) (m : QualityMetrics) (batch : List Package) :
    QualityMetrics :=
  batch.foldl (fun acc pkg => addPackageResult acc pkg.name (f pkg)) m

/-- One medium/light batch invocation: on success the parsed batch totals
are split evenly (`Math.round(total / batch.length)`) over every member;
on failure every member is recorded as `1 error / 0 warnings / failed`. -/
def batchPhase (outcome : Except Unit String) (m : QualityMetrics) (batch : List Package) :
    QualityMetrics :=
  if batch.isEmpty then m
  else
    match outcome with
    | Except.ok output =>
        let batchResult := parseESLintOutput output
        let avgPerPackage : CheckResult :=
          { errors := jsRoundNat ((batchResult.1 : ℚ) / (batch.length : ℚ))
            warnings := jsRoundNat ((batchResult.2 : ℚ) / (batch.length : ℚ))
            status := LintStatus.success }
        addResultsFor (fun _ => avgPerPackage) m batch
    | Except.error _ =>
        addResultsFor (fun _ => { errors := 1, warnings := 0, status := LintStatus.failed })
          m batch

/-- Embeds `runQualityLint`: construct the metrics (loading the previous
score from `store`), return the finalized empty report when there is
nothing to lint, otherwise categorize, run the heavy packages one by one,
then the medium batch, then the light batch, and finalize. -/
def runQualityLint (packages : List Package) (env : LintEnv) (store : ReportStore) :
    QualityMetrics :=
  let m0 := { initMetrics store with totalPackages := packages.length }
  if packages.isEmpty then finalizeMetrics m0
  else
    let buckets := categorizePackages packages
    let m1 := addResultsFor (heavyResult env) m0 buckets.1
    let m2 := batchPhase env.medium m1 buckets.2.1
    let m3 := batchPhase env.light m2 buckets.2.2
    finalizeMetrics m3

/-- One orchestrator invocation: run the quality lint and persist the
finalized report over the previous one (the `writeFileSync` in
`finalize`). -/
def runOnce (packages : List Package) (env : LintEnv) (store : ReportStore) :
    QualityMetrics × ReportStore :=
  let m := runQualityLint packages env store
  (m, some (some m))

/-- Looks up the recorded result of a package in the report (JavaScript
object indexing; the most recent assignment wins). -/
def lookupResult (m : QualityMetrics) (packageName : String) : Option CheckResult :=
  (m.packageResults.find? (fun entry => entry.1 == packageName)).map (fun entry => entry.2)

/-- The discovery cache artifact (`.lint-cache.json`): its filesystem
modification time and its contents, `none` when the JSON does not parse. -/
structure CacheFile where
  mtime : ℕ
  content : Option (List Package)
deriving DecidableEq, Repr

/-- Embeds `getLintablePackages`: when a cache file exists and is younger
than one hour, return its deserialized contents directly (skipping the
scan); on a deserialization failure or a stale/missing cache, fall back to
the fresh scan result `scanned` and rewrite the cache.  The returned
boolean records whether the filesystem was traversed, and the third
component is the cache state after the call. -/
def getLintablePackages (cache : Option CacheFile) (now : ℕ) (scanned : List Package) :
    List Package × Bool × Option CacheFile :=
  match cache with
  | some cacheFile =>
      if now - cacheFile.mtime < 3600000 then
        match cacheFile.content with
        | some cached => (cached, false, some cacheFile)
        | none => (scanned, true, some { mtime := now, content := some scanned })
      else (scanned, true, some { mtime := now, content := some scanned })
  | none => (scanned, true, some { mtime := now, content := some scanned })

/-- One named pass/fail criterion appended by `addCheck`. -/
structure GateCheck where
  name : String
  passed : Bool
  message : String
  score : JSNum
deriving DecidableEq, Repr

/-- The persisted lint quality report as read by `checkLintQuality`. -/
structure LintReport where
  qualityScore : JSNum
  errors : ℕ
  warnings : ℕ
deriving DecidableEq, Repr

/-- Renders a number for a check message (decimal display of non-integral
scores is abstracted; no verified property depends on messages of
successful checks). -/
def jsNumToString : JSNum → String
  | JSNum.nan => "NaN"
  | JSNum.posInf => "Infinity"
  | JSNum.negInf => "-Infinity"
  | JSNum.num q => toString q.num ++ (if q.den == 1 then ("") else ("/") ++ toString q.den)

/-- Embeds `checkLintQuality`: on a readable report it appends the three
threshold checks (score at least 80, at most 0 errors, at most 10
warnings); a thrown exception is caught and converted into a single
failed check carrying the exception message. -/
def checkLintQuality (r : Except String LintReport) : List GateCheck :=
  match r with
  | Except.ok report =>
      [ { name := "Lint Quality Score"
          passed := jsGe report.qualityScore (JSNum.num 80)
          message := jsNumToString report.qualityScore ++ "% (min: 80%)"
          score := report.qualityScore },
        { name := "Error Count"
          passed := decide (report.errors ≤ 0)
          message := toString report.errors ++ " errors (max: 0)"
          score := JSNum.num 0 },
        { name := "Warning Count"
          passed := decide (report.warnings ≤ 10)
          message := toString report.warnings ++ " warnings (max: 10)"
          score := JSNum.num 0 } ]
  | Except.error msg =>
      [ { name := "Lint Quality"
          passed := false
          message := "Failed to check lint quality: " ++ msg
          score := JSNum.num 0 } ]

/-- Embeds `checkTypeScript`: the catch branch records a failed check with
a fixed message. -/
def checkTypeScript (r : Except String Unit) : GateCheck :=
  match r with
  | Except.ok _ =>
      { name := "TypeScript", passed := true
        message := "All TypeScript files compile successfully", score := JSNum.num 0 }
  | Except.error _ =>
      { name := "TypeScript", passed := false
        message := "TypeScript compilation errors detected", score := JSNum.num 0 }

/-- Embeds `checkBuild` (only run with the include-build flag). -/
def checkBuild (r : Except String Unit) : GateCheck :=
  match r with
  | Except.ok _ =>
      { name := "Build", passed := true
        message := "Build process completes successfully", score := JSNum.num 0 }
  | Except.error _ =>
      { name := "Build", passed := false
        message := "Build process failed or timed out", score := JSNum.num 0 }

/-- Embeds `checkSecurity`: on a completed scan the check passes exactly
when no anti-pattern matched; a thrown exception is caught and converted
into a failed check carrying the exception message. -/
def checkSecurity (r : Except String ℕ) : GateCheck :=
  match r with
  | Except.ok securityIssues =>
      { name := "Security Scan"
        passed := securityIssues == 0
        message :=
          if securityIssues == 0 then ("No security issues detected")
          else toString securityIssues ++ " potential security issues found"
        score := JSNum.num 0 }
  | Except.error msg =>
      { name := "Security Scan", passed := false
        message := "Security check failed: " ++ msg, score := JSNum.num 0 }

/-- Embeds `checkFormatting`: the catch branch records a failed check with
a fixed message. -/
def checkFormatting (r : Except String Unit) : GateCheck :=
  match r with
  | Except.ok _ =>
      { name := "Formatting", passed := true
        message := "Code formatting is consistent", score := JSNum.num 0 }
  | Except.error _ =>
      { name := "Formatting", passed := false
        message := "Code formatting issues detected", score := JSNum.num 0 }

/-- Embeds `checkTodoComments`: on a completed count the check passes when
fewer than 50 deferred-work comments were found; the catch branch records
a PASSING check with a fixed message. -/
def checkTodoComments (r : Except String ℕ) : GateCheck :=
  match r with
  | Except.ok todoCount =>
      { name := "TODO Comments"
        passed := decide (todoCount < 50)
        message := toString todoCount ++ " TODO/FIXME comments found"
        score := JSNum.num 0 }
  | Except.error _ =>
      { name := "TODO Comments", passed := true
        message := "Unable to check TODO comments", score := JSNum.num 0 }

/-- Embeds `checkDependencies`: the catch branch records a failed check
whose fixed message depends on whether the exception message mentions the
audit. -/
def checkDependencies (r : Except String Unit) : GateCheck :=
  match r with
  | Except.ok _ =>
      { name := "Dependencies", passed := true
        message := "No critical dependency vulnerabilities", score := JSNum.num 0 }
  | Except.error msg =>
      { name := "Dependencies", passed := false
        message :=
          if jsIncludes msg ("audit") then ("Dependency vulnerabilities detected")
          else ("Dependency check failed")
        score := JSNum.num 0 }

/-- Outcomes of the external processes behind the individual gate
checkers; `Except.error` carries the message of a thrown exception. -/
structure GateOutcomes where
  lint : Except String LintReport
  typescript : Except String Unit
  security : Except String ℕ
  formatting : Except String Unit
  todo : Except String ℕ
  deps : Except String Unit
  build : Except String Unit

/-- The ordered check list built by `runAllChecks`: the six standard
checkers, plus the build check only when the include-build flag is set. -/
def gateChecks (o : GateOutcomes) (includeBuild : Bool) : List GateCheck :=
  checkLintQuality o.lint ++
    [checkTypeScript o.typescript, checkSecurity o.security, checkFormatting o.formatting,
      checkTodoComments o.todo, checkDependencies o.deps] ++
    (if includeBuild then [checkBuild o.build] else [])

/-- Embeds `QualityGate.calculateScore`:
`Math.round((passedChecks / totalChecks) * 100)`. -/
def calculateScore (checks : List GateCheck) : JSNum :=
  let passedChecks := (checks.filter (fun check => check.passed)).length
  let totalChecks := checks.length
  jsRound (jsMul (jsDiv (JSNum.num (passedChecks : ℚ)) (JSNum.num (totalChecks : ℚ)))
    (JSNum.num 100))

/-- The final gate verdict. -/
structure GateResult where
  passed : Bool
  checks : List GateCheck
  score : JSNum
  recommendations : List String
deriving DecidableEq, Repr

/-- Embeds `QualityGate.runAllChecks` followed by `calculateScore`: the
score is computed over exactly the accumulated checks, the verdict is
`score >= 85`, and one remediation line is kept per failed check in check
order (as appended by `addCheck`). -/
def runAllChecks (o : GateOutcomes) (includeBuild : Bool) : GateResult :=
  let checks := gateChecks o includeBuild
  let score := calculateScore checks
  { passed := jsGe score (JSNum.num 85)
    checks := checks
    score := score
    recommendations :=
      checks.filterMap (fun check =>
        if check.passed then none
        else some ("Fix: " ++ check.name ++ " - " ++ check.message)) }

/-- Clamp of a value into `[lo, hi]` (specification shorthand for
`Math.max(lo, Math.min(hi, x))`). -/
def clampQ (x lo hi : ℚ) : ℚ := max lo (min hi x)

/-- Rounding to two decimal places, half up (specification shorthand for
`Math.round(x * 100) / 100`). -/
def roundTo2 (x : ℚ) : ℚ := ((roundHalfUp (x * 100) : ℤ) : ℚ) / 100

theorem roundHalfUp_eq_of (q : ℚ) (z : ℤ) (h1 : (z : ℚ) ≤ q + 1 / 2)
    (h2 : q + 1 / 2 < (z : ℚ) + 1) : roundHalfUp q = z := by
  rw [roundHalfUp]
  exact Int.floor_eq_iff.mpr ⟨h1, h2⟩

theorem calculateQualityScore_num (m : QualityMetrics) (hl : m.lintedPackages ≠ 0) :
    calculateQualityScore m =
      JSNum.num (roundTo2 (clampQ
        (100 - ((m.errors : ℚ) + (m.warnings : ℚ)) / (10 * (m.lintedPackages : ℚ)) * 100)
        0 100)) := by
  have hL : ((m.lintedPackages * 10 : ℕ) : ℚ) ≠ 0 := by
    exact_mod_cast Nat.mul_ne_zero hl (by norm_num)
  have hcast :
      ((m.errors + m.warnings : ℕ) : ℚ) / ((m.lintedPackages * 10 : ℕ) : ℚ) =
        ((m.errors : ℚ) + (m.warnings : ℚ)) / (10 * (m.lintedPackages : ℚ)) := by
    push_cast
    ring_nf
  rw [calculateQualityScore]
  simp only [jsDiv, jsMul, jsSub, jsMin, jsMax, jsRound, if_neg hL]
  rw [hcast]
  norm_num [roundTo2, clampQ]

theorem roundTo2_hundred : roundTo2 100 = 100 := by
  have h : roundHalfUp ((100 : ℚ) * 100) = 10000 := by
    apply roundHalfUp_eq_of <;> norm_num
  rw [roundTo2, h]
  norm_num

theorem roundTo2_zero : roundTo2 0 = 0 := by
  have h : roundHalfUp ((0 : ℚ) * 100) = 0 := by
    apply roundHalfUp_eq_of <;> norm_num
  rw [roundTo2, h]
  norm_num

/-- C1: for a finalized run with at least one linted package, the quality
score is exactly the clamp of `100 - (errors + warnings) / (10 * lintedPackages) * 100`
into `[0, 100]`, rounded to two decimal places; it is exactly 100 when
there are no errors and no warnings, and exactly 0 as soon as
`errors + warnings` reaches `10 * lintedPackages` (so it is never
negative, however large the issue count). -/
theorem c1_quality_score_formula (m : QualityMetrics) (hl : 1 ≤ m.lintedPackages) :
    (finalizeMetrics m).qualityScore =
      JSNum.num (roundTo2 (clampQ
        (100 - ((m.errors : ℚ) + (m.warnings : ℚ)) / (10 * (m.lintedPackages : ℚ)) * 100)
        0 100))
    ∧ (m.errors = 0 → m.warnings = 0 → (finalizeMetrics m).qualityScore = JSNum.num 100)
    ∧ (m.lintedPackages * 10 ≤ m.errors + m.warnings →
        (finalizeMetrics m).qualityScore = JSNum.num 0) := by
  have hl0 : m.lintedPackages ≠ 0 := by omega
  have hbase : (finalizeMetrics m).qualityScore =
      JSNum.num (roundTo2 (clampQ
        (100 - ((m.errors : ℚ) + (m.warnings : ℚ)) / (10 * (m.lintedPackages : ℚ)) * 100)
        0 100)) := by
    show calculateQualityScore m = _
    exact calculateQualityScore_num m hl0
  refine ⟨hbase, ?_, ?_⟩
  · intro he hw
    rw [hbase, he, hw]
    norm_num [clampQ, roundTo2_hundred]
  · intro hmany
    have hpos : (0 : ℚ) < 10 * (m.lintedPackages : ℚ) := by
      have : (0 : ℚ) < (m.lintedPackages : ℚ) := by exact_mod_cast Nat.pos_of_ne_zero hl0
      linarith
    have hge : (10 : ℚ) * (m.lintedPackages : ℚ) ≤ (m.errors : ℚ) + (m.warnings : ℚ) := by
      have hnat : 10 * m.lintedPackages ≤ m.errors + m.warnings := by omega
      exact_mod_cast hnat
    have hdiv : (1 : ℚ) ≤ ((m.errors : ℚ) + (m.warnings : ℚ)) / (10 * (m.lintedPackages : ℚ)) :=
      (one_le_div hpos).mpr hge
    have hv : 100 - ((m.errors : ℚ) + (m.warnings : ℚ)) / (10 * (m.lintedPackages : ℚ)) * 100 ≤ 0 := by
      nlinarith
    rw [hbase]
    have hclamp : clampQ
        (100 - ((m.errors : ℚ) + (m.warnings : ℚ)) / (10 * (m.lintedPackages : ℚ)) * 100)
        0 100 = 0 := by
      rw [clampQ, min_eq_right (by linarith), max_eq_left hv]
    rw [hclamp, roundTo2_zero]

/-- Witness run for C1: one linted package with 3 errors and 2 warnings. -/
def mC1 : QualityMetrics :=
  { totalPackages := 1, lintedPackages := 1, errors := 3, warnings := 2,
    packageResults := [], qualityScore := JSNum.num 0, previousScore := JSNum.num 0 }

theorem c1_quality_score_formula_witness :
    1 ≤ mC1.lintedPackages ∧
      ((finalizeMetrics mC1).qualityScore =
        JSNum.num (roundTo2 (clampQ
          (100 - ((mC1.errors : ℚ) + (mC1.warnings : ℚ)) / (10 * (mC1.lintedPackages : ℚ)) * 100)
          0 100))
      ∧ (mC1.errors = 0 → mC1.warnings = 0 → (finalizeMetrics mC1).qualityScore = JSNum.num 100)
      ∧ (mC1.lintedPackages * 10 ≤ mC1.errors + mC1.warnings →
          (finalizeMetrics mC1).qualityScore = JSNum.num 0)) :=
  ⟨by decide, c1_quality_score_formula mC1 (by decide)⟩

theorem calculateQualityScore_isRealIn (m : QualityMetrics) (hl : m.lintedPackages ≠ 0) :
    (calculateQualityScore m).isRealIn 0 100 = true := by
  rw [calculateQualityScore_num m hl]
  set v : ℚ :=
    100 - ((m.errors : ℚ) + (m.warnings : ℚ)) / (10 * (m.lintedPackages : ℚ)) * 100 with hv
  have hs0 : 0 ≤ clampQ v 0 100 := le_max_left _ _
  have hs100 : clampQ v 0 100 ≤ 100 := max_le (by norm_num) (min_le_left _ _)
  have h1 : (0 : ℤ) ≤ roundHalfUp (clampQ v 0 100 * 100) := by
    rw [roundHalfUp]
    apply Int.le_floor.mpr
    push_cast
    nlinarith
  have h2 : roundHalfUp (clampQ v 0 100 * 100) ≤ 10000 := by
    rw [roundHalfUp]
    have hlt : ⌊clampQ v 0 100 * 100 + 1 / 2⌋ < 10001 := by
      apply Int.floor_lt.mpr
      push_cast
      nlinarith
    omega
  rw [JSNum.isRealIn]
  simp only [Bool.and_eq_true, decide_eq_true_eq]
  constructor
  · apply div_nonneg _ (by norm_num)
    exact_mod_cast h1
  · rw [roundTo2, div_le_iff (by norm_num)]
    have : ((roundHalfUp (clampQ v 0 100 * 100) : ℤ) : ℚ) ≤ 10000 := by exact_mod_cast h2
    linarith

theorem insertBySize_perm (pkg : Package) (l : List Package) :
    List.Perm (insertBySize pkg l) (pkg :: l) := by
  induction l with
  | nil => rfl
  | cons q qs ih =>
      rw [insertBySize]
      by_cases h : pkg.size ≥ q.size
      · rw [if_pos h]
      · rw [if_neg h]
        exact (ih.cons q).trans (List.Perm.swap pkg q qs)

theorem sortBySizeDesc_perm (l : List Package) : List.Perm (sortBySizeDesc l) l := by
  induction l with
  | nil => rfl
  | cons p ps ih =>
      rw [sortBySizeDesc]
      exact (insertBySize_perm p (sortBySizeDesc ps)).trans (ih.cons p)

theorem mem_sortBySizeDesc (pkg : Package) (l : List Package) :
    pkg ∈ sortBySizeDesc l ↔ pkg ∈ l :=
  (sortBySizeDesc_perm l).mem_iff

theorem bucketPackages_perm (l : List Package) :
    List.Perm ((bucketPackages l).1 ++ (bucketPackages l).2.1 ++ (bucketPackages l).2.2) l := by
  induction l with
  | nil => rfl
  | cons p ps ih =>
      rw [bucketPackages]
      by_cases h4 : totalWeight p ≥ 4
      · simpa [h4] using ih.cons p
      · by_cases h2 : totalWeight p ≥ 2
        · simp only [h4, h2, if_false, if_true]
          refine List.Perm.trans ?_ (ih.cons p)
          have hmid : List.Perm
              ((bucketPackages ps).1 ++ (p :: (bucketPackages ps).2.1) ++ (bucketPackages ps).2.2)
              ((p :: ((bucketPackages ps).1 ++ (bucketPackages ps).2.1)) ++ (bucketPackages ps).2.2) :=
            List.Perm.append_right _ List.perm_middle
          simpa using hmid
        · simp only [h4, h2, if_false]
          refine List.Perm.trans ?_ (ih.cons p)
          have hmid : List.Perm
              (((bucketPackages ps).1 ++ (bucketPackages ps).2.1) ++ (p :: (bucketPackages ps).2.2))
              (p :: (((bucketPackages ps).1 ++ (bucketPackages ps).2.1) ++ (bucketPackages ps).2.2)) :=
            List.perm_middle
          simpa using hmid

theorem mem_bucket_heavy (pkg : Package) (l : List Package) :
    pkg ∈ (bucketPackages l).1 ↔ pkg ∈ l ∧ totalWeight pkg ≥ 4 := by
  induction l with
  | nil => simp [bucketPackages]
  | cons p ps ih =>
      rw [bucketPackages]
      by_cases h4 : totalWeight p ≥ 4
      · by_cases hpq : pkg = p
        · subst hpq
          simp [h4, ih]
        · simp only [h4, if_true, List.mem_cons]
          simp [hpq, ih]
      · by_cases h2 : totalWeight p ≥ 2
        · by_cases hpq : pkg = p
          · subst hpq
            simp [h4, h2, ih]
          · simp [h4, h2, hpq, ih]
        · by_cases hpq : pkg = p
          · subst hpq
            simp [h4, h2, ih]
          · simp [h4, h2, hpq, ih]

theorem mem_bucket_medium (pkg : Package) (l : List Package) :
    pkg ∈ (bucketPackages l).2.1 ↔ pkg ∈ l ∧ 2 ≤ totalWeight pkg ∧ totalWeight pkg < 4 := by
  induction l with
  | nil => simp [bucketPackages]
  | cons p ps ih =>
      rw [bucketPackages]
      by_cases h4 : totalWeight p ≥ 4
      · by_cases hpq : pkg = p
        · subst hpq
          simp [h4, ih]

        · simp [h4, hpq, ih]
      · by_cases h2 : totalWeight p ≥ 2
        · by_cases hpq : pkg = p
          · subst hpq
            simp [h4, h2, ih]
            omega
          · simp [h4, h2, hpq, ih]
        · by_cases hpq : pkg = p
          · subst hpq
            simp [h4, h2, ih]
          · simp [h4, h2, hpq, ih]

theorem mem_bucket_light (pkg : Package) (l : List Package) :
    pkg ∈ (bucketPackages l).2.2 ↔ pkg ∈ l ∧ totalWeight pkg < 2 := by
  induction l with
  | nil => simp [bucketPackages]
  | cons p ps ih =>
      rw [bucketPackages]
      by_cases h4 : totalWeight p ≥ 4
      · by_cases hpq : pkg = p
        · subst hpq
          simp [h4, ih]
          exact fun h => absurd h4 (by omega)
        · simp [h4, hpq, ih]
      · by_cases h2 : totalWeight p ≥ 2
        · by_cases hpq : pkg = p
          · subst hpq
            simp [h4, h2, ih]
          · simp [h4, h2, hpq, ih]
        · by_cases hpq : pkg = p
          · subst hpq
            simp [h4, h2, ih]
            omega
          · simp [h4, h2, hpq, ih]

theorem lookupResult_addPackageResult (m : QualityMetrics) (n x : String) (r : CheckResult) :
    lookupResult (addPackageResult m n r) x =
      if n = x then some r else lookupResult m x := by
  simp only [lookupResult, addPackageResult]
  by_cases h : n = x
  · subst h
    rw [List.find?_cons_of_pos _ (by simp), if_pos rfl]
    rfl
  · rw [List.find?_cons_of_neg _ (by simp [h]), if_neg h]

theorem addResultsFor_cons (f : Package → CheckResult) (m : QualityMetrics) (p : Package)
    (t : List Package) :
    addResultsFor f m (p :: t) = addResultsFor f (addPackageResult m p.name (f p)) t := rfl

theorem lookupResult_addResultsFor_not_mem (f : Package → CheckResult) (m : QualityMetrics)
    (l : List Package) (x : String) (hx : ∀ p ∈ l, p.name ≠ x) :
    lookupResult (addResultsFor f m l) x = lookupResult m x := by
  induction l generalizing m with
  | nil => rfl
  | cons p t ih =>
      rw [addResultsFor_cons, ih _ (fun q hq => hx q (List.mem_cons_of_mem p hq)),
        lookupResult_addPackageResult, if_neg (hx p (List.mem_cons_self p t))]

theorem lookupResult_addResultsFor_mem (f : Package → CheckResult) (m : QualityMetrics)
    (l : List Package) (pkg : Package) (hnd : (l.map Package.name).Nodup) (hmem : pkg ∈ l) :
    lookupResult (addResultsFor f m l) pkg.name = some (f pkg) := by
  induction l generalizing m with
  | nil => cases hmem
  | cons p t ih =>
      rw [List.map_cons, List.nodup_cons] at hnd
      rcases List.mem_cons.mp hmem with rfl | hmem'
      · rw [addResultsFor_cons,
          lookupResult_addResultsFor_not_mem _ _ _ _
            (fun q hq hqn => hnd.1 (by rw [← hqn]; exact List.mem_map_of_mem Package.name hq)),
          lookupResult_addPackageResult, if_pos rfl]
      · exact ih _ hnd.2 hmem'

theorem addResultsFor_lintedPackages (f : Package → CheckResult) (m : QualityMetrics)
    (l : List Package) :
    (addResultsFor f m l).lintedPackages = m.lintedPackages + l.length := by
  induction l generalizing m with
  | nil => rfl
  | cons p t ih =>
      rw [addResultsFor_cons, ih]
      simp [addPackageResult]
      omega

theorem addResultsFor_previousScore (f : Package → CheckResult) (m : QualityMetrics)
    (l : List Package) :
    (addResultsFor f m l).previousScore = m.previousScore := by
  induction l generalizing m with
  | nil => rfl
  | cons p t ih =>
      rw [addResultsFor_cons, ih]
      rfl

theorem batchPhase_lintedPackages (outcome : Except Unit String) (m : QualityMetrics)
    (batch : List Package) :
    (batchPhase outcome m batch).lintedPackages = m.lintedPackages + batch.length := by
  rw [batchPhase.eq_def]
  by_cases hb : batch.isEmpty
  · rw [if_pos hb]
    rw [List.isEmpty_iff] at hb
    simp [hb]
  · rw [if_neg hb]
    cases outcome with
    | ok output => exact addResultsFor_lintedPackages _ _ _
    | error e => exact addResultsFor_lintedPackages _ _ _

theorem batchPhase_previousScore (outcome : Except Unit String) (m : QualityMetrics)
    (batch : List Package) :
    (batchPhase outcome m batch).previousScore = m.previousScore := by
  rw [batchPhase.eq_def]
  by_cases hb : batch.isEmpty
  · rw [if_pos hb]
  · rw [if_neg hb]
    cases outcome with
    | ok output => exact addResultsFor_previousScore _ _ _
    | error e => exact addResultsFor_previousScore _ _ _

theorem lookupResult_batchPhase_not_mem (outcome : Except Unit String) (m : QualityMetrics)
    (batch : List Package) (x : String) (hx : ∀ p ∈ batch, p.name ≠ x) :
    lookupResult (batchPhase outcome m batch) x = lookupResult m x := by
  rw [batchPhase.eq_def]
  by_cases hb : batch.isEmpty
  · rw [if_pos hb]
  · rw [if_neg hb]
    cases outcome with
    | ok output => exact lookupResult_addResultsFor_not_mem _ _ _ _ hx
    | error e => exact lookupResult_addResultsFor_not_mem _ _ _ _ hx

theorem lookupResult_batchPhase_ok (output : String) (m : QualityMetrics)
    (batch : List Package) (pkg : Package) (hnd : (batch.map Package.name).Nodup)
    (hmem : pkg ∈ batch) :
    lookupResult (batchPhase (Except.ok output) m batch) pkg.name =
      some
        { errors := jsRoundNat (((parseESLintOutput output).1 : ℚ) / (batch.length : ℚ))
          warnings := jsRoundNat (((parseESLintOutput output).2 : ℚ) / (batch.length : ℚ))
          status := LintStatus.success } := by
  rw [batchPhase.eq_def]
  have hb : batch.isEmpty = false := by
    cases batch with
    | nil => cases hmem
    | cons a t => rfl
  rw [hb]
  simp only [Bool.false_eq_true, if_false]
  exact lookupResult_addResultsFor_mem _ _ _ _ hnd hmem

theorem lookupResult_batchPhase_error (m : QualityMetrics)
    (batch : List Package) (pkg : Package) (hnd : (batch.map Package.name).Nodup)
    (hmem : pkg ∈ batch) :
    lookupResult (batchPhase (Except.error ()) m batch) pkg.name =
      some { errors := 1, warnings := 0, status := LintStatus.failed } := by
  rw [batchPhase.eq_def]
  have hb : batch.isEmpty = false := by
    cases batch with
    | nil => cases hmem
    | cons a t => rfl
  rw [hb]
  simp only [Bool.false_eq_true, if_false]
  exact lookupResult_addResultsFor_mem _ _ _ _ hnd hmem

theorem categorize_perm (ps : List Package) :
    List.Perm
      ((categorizePackages ps).1 ++ (categorizePackages ps).2.1 ++ (categorizePackages ps).2.2)
      ps :=
  (bucketPackages_perm (sortBySizeDesc ps)).trans (sortBySizeDesc_perm ps)

theorem categorize_names_nodup (ps : List Package) (hnd : (ps.map Package.name).Nodup) :
    (((categorizePackages ps).1 ++ (categorizePackages ps).2.1 ++
        (categorizePackages ps).2.2).map Package.name).Nodup :=
  (((categorize_perm ps).map Package.name).nodup_iff).mpr hnd

theorem mem_categorize_heavy (pkg : Package) (ps : List Package) :
    pkg ∈ (categorizePackages ps).1 ↔ pkg ∈ ps ∧ totalWeight pkg ≥ 4 := by
  rw [categorizePackages, mem_bucket_heavy, mem_sortBySizeDesc]

theorem mem_categorize_medium (pkg : Package) (ps : List Package) :
    pkg ∈ (categorizePackages ps).2.1 ↔
      pkg ∈ ps ∧ 2 ≤ totalWeight pkg ∧ totalWeight pkg < 4 := by
  rw [categorizePackages, mem_bucket_medium, mem_sortBySizeDesc]

theorem mem_categorize_light (pkg : Package) (ps : List Package) :
    pkg ∈ (categorizePackages ps).2.2 ↔ pkg ∈ ps ∧ totalWeight pkg < 2 := by
  rw [categorizePackages, mem_bucket_light, mem_sortBySizeDesc]

theorem runQualityLint_eq_of_ne_nil (ps : List Package) (env : LintEnv) (store : ReportStore)
    (h : ps ≠ []) :
    runQualityLint ps env store =
      finalizeMetrics
        (batchPhase env.light
          (batchPhase env.medium
            (addResultsFor (heavyResult env)
              { initMetrics store with totalPackages := ps.length }
              (categorizePackages ps).1)
            (categorizePackages ps).2.1)
          (categorizePackages ps).2.2) := by
  cases ps with
  | nil => cases h rfl
  | cons a t => rfl

/-- The single result recorded for every member of a batch: the evenly
split rounded share of the parsed totals on success, the fixed failure
result on a failed invocation. -/
def batchResultFor (outcome : Except Unit String) (n : ℕ) : CheckResult :=
  match outcome with
  | Except.ok output =>
      { errors := jsRoundNat (((parseESLintOutput output).1 : ℚ) / (n : ℚ))
        warnings := jsRoundNat (((parseESLintOutput output).2 : ℚ) / (n : ℚ))
        status := LintStatus.success }
  | Except.error _ => { errors := 1, warnings := 0, status := LintStatus.failed }

theorem lookupResult_batchPhase_mem (outcome : Except Unit String) (m : QualityMetrics)
    (batch : List Package) (pkg : Package) (hnd : (batch.map Package.name).Nodup)
    (hmem : pkg ∈ batch) :
    lookupResult (batchPhase outcome m batch) pkg.name =
      some (batchResultFor outcome batch.length) := by
  cases outcome with
  | ok output => exact lookupResult_batchPhase_ok output m batch pkg hnd hmem
  | error e =>
      cases e
      exact lookupResult_batchPhase_error m batch pkg hnd hmem

theorem lookupResult_finalizeMetrics (m : QualityMetrics) (x : String) :
    lookupResult (finalizeMetrics m) x = lookupResult m x := rfl

theorem finalizeMetrics_qualityScore (m : QualityMetrics) :
    (finalizeMetrics m).qualityScore = calculateQualityScore m := rfl

theorem finalizeMetrics_previousScore (m : QualityMetrics) :
    (finalizeMetrics m).previousScore = m.previousScore := rfl

theorem finalizeMetrics_lintedPackages (m : QualityMetrics) :
    (finalizeMetrics m).lintedPackages = m.lintedPackages := rfl

theorem run_lookup_heavy (ps : List Package) (env : LintEnv) (store : ReportStore)
    (pkg : Package) (hnd : (ps.map Package.name).Nodup)
    (hpkg : pkg ∈ (categorizePackages ps).1) :
    lookupResult (runQualityLint ps env store) pkg.name = some (heavyResult env pkg) := by
  have hne : ps ≠ [] := by
    intro he
    subst he
    simp [categorizePackages, sortBySizeDesc, bucketPackages] at hpkg
  have hn := categorize_names_nodup ps hnd
  rw [List.map_append, List.map_append] at hn
  have h1 := List.nodup_append.mp hn
  have h2 := List.nodup_append.mp h1.1
  rw [runQualityLint_eq_of_ne_nil _ _ _ hne, lookupResult_finalizeMetrics,
    lookupResult_batchPhase_not_mem _ _ _ _
      (fun p hp hpn => h1.2.2
        (List.mem_append_left _ (List.mem_map_of_mem Package.name hpkg))
        (by rw [← hpn]; exact List.mem_map_of_mem Package.name hp)),
    lookupResult_batchPhase_not_mem _ _ _ _
      (fun p hp hpn => h2.2.2 (List.mem_map_of_mem Package.name hpkg)
        (by rw [← hpn]; exact List.mem_map_of_mem Package.name hp)),
    lookupResult_addResultsFor_mem _ _ _ _ h2.1 hpkg]

theorem run_lookup_medium (ps : List Package) (env : LintEnv) (store : ReportStore)
    (pkg : Package) (hnd : (ps.map Package.name).Nodup)
    (hpkg : pkg ∈ (categorizePackages ps).2.1) :
    lookupResult (runQualityLint ps env store) pkg.name =
      some (batchResultFor env.medium (categorizePackages ps).2.1.length) := by
  have hne : ps ≠ [] := by
    intro he
    subst he
    simp [categorizePackages, sortBySizeDesc, bucketPackages] at hpkg
  have hn := categorize_names_nodup ps hnd
  rw [List.map_append, List.map_append] at hn
  have h1 := List.nodup_append.mp hn
  have h2 := List.nodup_append.mp h1.1
  rw [runQualityLint_eq_of_ne_nil _ _ _ hne, lookupResult_finalizeMetrics,
    lookupResult_batchPhase_not_mem _ _ _ _
      (fun p hp hpn => h1.2.2
        (List.mem_append_right _ (List.mem_map_of_mem Package.name hpkg))
        (by rw [← hpn]; exact List.mem_map_of_mem Package.name hp)),
    lookupResult_batchPhase_mem _ _ _ _ h2.2.1 hpkg]

theorem run_lookup_light (ps : List Package) (env : LintEnv) (store : ReportStore)
    (pkg : Package) (hnd : (ps.map Package.name).Nodup)
    (hpkg : pkg ∈ (categorizePackages ps).2.2) :
    lookupResult (runQualityLint ps env store) pkg.name =
      some (batchResultFor env.light (categorizePackages ps).2.2.length) := by
  have hne : ps ≠ [] := by
    intro he
    subst he
    simp [categorizePackages, sortBySizeDesc, bucketPackages] at hpkg
  have hn := categorize_names_nodup ps hnd
  rw [List.map_append, List.map_append] at hn
  have h1 := List.nodup_append.mp hn
  rw [runQualityLint_eq_of_ne_nil _ _ _ hne, lookupResult_finalizeMetrics,
    lookupResult_batchPhase_mem _ _ _ _ h1.2.1 hpkg]

theorem isRealIn_num_exists (x : JSNum) (lo hi : ℚ) (h : x.isRealIn lo hi = true) :
    ∃ q, x = JSNum.num q := by
  cases x with
  | num q => exact ⟨q, rfl⟩
  | nan => simp [JSNum.isRealIn] at h
  | posInf => simp [JSNum.isRealIn] at h
  | negInf => simp [JSNum.isRealIn] at h

theorem jsOr_num_zero (q : ℚ) : jsOr (JSNum.num q) (JSNum.num 0) = JSNum.num q := by
  by_cases h : q = 0
  · subst h
    simp [jsOr, jsTruthy]
  · simp [jsOr, jsTruthy, h]

theorem loadPreviousScore_report (m : QualityMetrics) :
    loadPreviousScore (some (some m)) = jsOr m.qualityScore (JSNum.num 0) := rfl

theorem runQualityLint_previousScore (ps : List Package) (env : LintEnv) (store : ReportStore) :
    (runQualityLint ps env store).previousScore = loadPreviousScore store := by
  by_cases h : ps = []
  · subst h
    rfl
  · rw [runQualityLint_eq_of_ne_nil _ _ _ h, finalizeMetrics_previousScore,
      batchPhase_previousScore, batchPhase_previousScore, addResultsFor_previousScore]
    rfl

theorem run_score_isRealIn (ps : List Package) (env : LintEnv) (store : ReportStore)
    (h : ps ≠ []) :
    ((runQualityLint ps env store).qualityScore).isRealIn 0 100 = true := by
  rw [runQualityLint_eq_of_ne_nil _ _ _ h, finalizeMetrics_qualityScore]
  apply calculateQualityScore_isRealIn
  rw [batchPhase_lintedPackages, batchPhase_lintedPackages, addResultsFor_lintedPackages]
  have hlen := (categorize_perm ps).length_eq
  rw [List.length_append, List.length_append] at hlen
  have hpos : ps.length ≠ 0 := by
    cases ps with
    | nil => cases h rfl
    | cons a t => simp
  simp only [initMetrics]
  omega

/-- Environment in which every lint invocation fails (non-zero exit or
timeout). -/
def envFail : LintEnv :=
  { heavy := fun _ => Except.error (), medium := Except.error (), light := Except.error () }

/-- C2 (amended): for every run that lints at least one package, the
finalized quality score is an actual number in `[0, 100]`; a run with no
linted packages (for example over an empty workspace) instead produces
NaN, because `totalIssues / maxIssues` is `0 / 0`. -/
theorem c2_quality_score_range (ps : List Package) (env : LintEnv) (store : ReportStore)
    (h : ps ≠ []) :
    ((runQualityLint ps env store).qualityScore).isRealIn 0 100 = true :=
  run_score_isRealIn ps env store h

/-- Light-tier package fixture used by several witness runs. -/
def pkgLightW : Package :=
  { name := "gamma", pkgPath := "packages/gamma", lastModified := 0,
    hasTypescript := false, hasTests := false, isPrivate := false, size := 0 }

theorem c2_quality_score_range_witness :
    ((runQualityLint [pkgLightW] envFail none).qualityScore).isRealIn 0 100 = true :=
  c2_quality_score_range [pkgLightW] envFail none (by decide)

/-- C2 counterexample: a finalized run over an empty workspace (zero
linted packages) has `qualityScore = NaN`, which is not a real number in
`[0, 100]` — the claim fails without the `lintedPackages >= 1`
precondition. -/
theorem c2_counterexample :
    ((runQualityLint [] envFail none).qualityScore).isRealIn 0 100 = false
    ∧ (runQualityLint [] envFail none).qualityScore = JSNum.nan := by
  exact ⟨by decide, by decide⟩

/-- C5: whenever an external lint invocation fails (non-zero exit or
timeout), every package in its scope — the single package of a heavy
invocation, every member of a medium or light batch — is recorded with
status failed, 1 error and 0 warnings; the run continues through the
remaining tiers and still finalizes a report in which every package of the
run has a recorded result. -/
theorem c5_invocation_failure_handling (ps : List Package) (env : LintEnv)
    (store : ReportStore) (hnd : (ps.map Package.name).Nodup) :
    (∀ pkg, pkg ∈ (categorizePackages ps).1 → env.heavy pkg = Except.error () →
        lookupResult (runQualityLint ps env store) pkg.name =
          some { errors := 1, warnings := 0, status := LintStatus.failed })
    ∧ (env.medium = Except.error () → ∀ pkg, pkg ∈ (categorizePackages ps).2.1 →
        lookupResult (runQualityLint ps env store) pkg.name =
          some { errors := 1, warnings := 0, status := LintStatus.failed })
    ∧ (env.light = Except.error () → ∀ pkg, pkg ∈ (categorizePackages ps).2.2 →
        lookupResult (runQualityLint ps env store) pkg.name =
          some { errors := 1, warnings := 0, status := LintStatus.failed })
    ∧ (∀ pkg, pkg ∈ ps →
        (lookupResult (runQualityLint ps env store) pkg.name).isSome = true) := by
  refine ⟨?_, ?_, ?_, ?_⟩
  · intro pkg hpkg henv
    rw [run_lookup_heavy ps env store pkg hnd hpkg]
    simp [heavyResult, henv]
  · intro hmed pkg hpkg
    rw [run_lookup_medium ps env store pkg hnd hpkg, hmed]
    rfl
  · intro hlight pkg hpkg
    rw [run_lookup_light ps env store pkg hnd hpkg, hlight]
    rfl
  · intro pkg hpkg
    by_cases w4 : totalWeight pkg ≥ 4
    · rw [run_lookup_heavy ps env store pkg hnd ((mem_categorize_heavy pkg ps).mpr ⟨hpkg, w4⟩)]
      rfl
    · by_cases w2 : 2 ≤ totalWeight pkg
      · rw [run_lookup_medium ps env store pkg hnd
          ((mem_categorize_medium pkg ps).mpr ⟨hpkg, w2, by omega⟩)]
        rfl
      · rw [run_lookup_light ps env store pkg hnd
          ((mem_categorize_light pkg ps).mpr ⟨hpkg, by omega⟩)]
        rfl

/-- Heavy-tier package for the C5 witness run. -/
def pkgHeavyW : Package :=
  { name := "n8n", pkgPath := "packages/cli", lastModified := 0,
    hasTypescript := true, hasTests := true, isPrivate := false, size := 2000000 }

/-- First medium-tier package for the witness runs. -/
def pkgMedW1 : Package :=
  { name := "alpha", pkgPath := "packages/alpha", lastModified := 0,
    hasTypescript := true, hasTests := true, isPrivate := false, size := 0 }

/-- Second medium-tier package for the witness runs. -/
def pkgMedW2 : Package :=
  { name := "beta", pkgPath := "packages/beta", lastModified := 0,
    hasTypescript := true, hasTests := true, isPrivate := false, size := 0 }

theorem c5_invocation_failure_handling_witness :
    lookupResult (runQualityLint [pkgHeavyW, pkgMedW1, pkgMedW2, pkgLightW] envFail none)
        pkgHeavyW.name = some { errors := 1, warnings := 0, status := LintStatus.failed }
    ∧ lookupResult (runQualityLint [pkgHeavyW, pkgMedW1, pkgMedW2, pkgLightW] envFail none)
        pkgMedW1.name = some { errors := 1, warnings := 0, status := LintStatus.failed }
    ∧ lookupResult (runQualityLint [pkgHeavyW, pkgMedW1, pkgMedW2, pkgLightW] envFail none)
        pkgLightW.name = some { errors := 1, warnings := 0, status := LintStatus.failed }
    ∧ (lookupResult (runQualityLint [pkgHeavyW, pkgMedW1, pkgMedW2, pkgLightW] envFail none)
        pkgMedW2.name).isSome = true :=
  ⟨(c5_invocation_failure_handling _ envFail none (by decide)).1 pkgHeavyW (by decide) rfl,
   (c5_invocation_failure_handling _ envFail none (by decide)).2.1 rfl pkgMedW1 (by decide),
   (c5_invocation_failure_handling _ envFail none (by decide)).2.2.1 rfl pkgLightW (by decide),
   (c5_invocation_failure_handling _ envFail none (by decide)).2.2.2 pkgMedW2 (by decide)⟩

/-- C6: for a successful medium (resp. light) batch invocation, every
member of the batch is recorded as a success with
`errors = round(E / n)` and `warnings = round(W / n)`, where `(E, W)` are
the parsed totals of the batch output and `n` the batch size. -/
theorem c6_batch_even_split (ps : List Package) (env : LintEnv) (store : ReportStore)
    (hnd : (ps.map Package.name).Nodup) :
    (∀ output, env.medium = Except.ok output → ∀ pkg, pkg ∈ (categorizePackages ps).2.1 →
        lookupResult (runQualityLint ps env store) pkg.name =
          some
            { errors := jsRoundNat (((parseESLintOutput output).1 : ℚ) /
                ((categorizePackages ps).2.1.length : ℚ))
              warnings := jsRoundNat (((parseESLintOutput output).2 : ℚ) /
                ((categorizePackages ps).2.1.length : ℚ))
              status := LintStatus.success })
    ∧ (∀ output, env.light = Except.ok output → ∀ pkg, pkg ∈ (categorizePackages ps).2.2 →
        lookupResult (runQualityLint ps env store) pkg.name =
          some
            { errors := jsRoundNat (((parseESLintOutput output).1 : ℚ) /
                ((categorizePackages ps).2.2.length : ℚ))
              warnings := jsRoundNat (((parseESLintOutput output).2 : ℚ) /
                ((categorizePackages ps).2.2.length : ℚ))
              status := LintStatus.success }) := by
  constructor
  · intro output hout pkg hpkg
    rw [run_lookup_medium ps env store pkg hnd hpkg, hout]
    rfl
  · intro output hout pkg hpkg
    rw [run_lookup_light ps env store pkg hnd hpkg, hout]
    rfl

/-- Third medium-tier package for the C6 witness run. -/
def pkgMedW3 : Package :=
  { name := "delta", pkgPath := "packages/delta", lastModified := 0,
    hasTypescript := true, hasTests := true, isPrivate := false, size := 0 }

/-- Batch output with six error lines and no warning lines. -/
def outSix : String := "error\nerror\nerror\nerror\nerror\nerror"

/-- Environment for the C6 witness: the medium batch succeeds with six
reported errors, everything else fails. -/
def envSplit : LintEnv :=
  { heavy := fun _ => Except.error (), medium := Except.ok outSix, light := Except.error () }

theorem c6_batch_even_split_witness :
    lookupResult (runQualityLint [pkgMedW1, pkgMedW2, pkgMedW3] envSplit none) pkgMedW1.name =
      some
        { errors := jsRoundNat (((parseESLintOutput outSix).1 : ℚ) /
            ((categorizePackages [pkgMedW1, pkgMedW2, pkgMedW3]).2.1.length : ℚ))
          warnings := jsRoundNat (((parseESLintOutput outSix).2 : ℚ) /
            ((categorizePackages [pkgMedW1, pkgMedW2, pkgMedW3]).2.1.length : ℚ))
          status := LintStatus.success }
    ∧ jsRoundNat (((parseESLintOutput outSix).1 : ℚ) /
        ((categorizePackages [pkgMedW1, pkgMedW2, pkgMedW3]).2.1.length : ℚ)) = 2
    ∧ jsRoundNat (((parseESLintOutput outSix).2 : ℚ) /
        ((categorizePackages [pkgMedW1, pkgMedW2, pkgMedW3]).2.1.length : ℚ)) = 0 := by
  have e1 : (parseESLintOutput outSix).1 = 6 := by decide
  have e2 : (parseESLintOutput outSix).2 = 0 := by decide
  have e3 : (categorizePackages [pkgMedW1, pkgMedW2, pkgMedW3]).2.1.length = 3 := by decide
  refine ⟨(c6_batch_even_split _ envSplit none (by decide)).1 outSix rfl pkgMedW1 (by decide),
    ?_, ?_⟩
  · rw [e1, e3, jsRoundNat, show ((6 : ℕ) : ℚ) / ((3 : ℕ) : ℚ) = 2 by norm_num,
      show roundHalfUp 2 = 2 from by apply roundHalfUp_eq_of <;> norm_num]
    rfl
  · rw [e2, e3, jsRoundNat, show ((0 : ℕ) : ℚ) / ((3 : ℕ) : ℚ) = 0 by norm_num,
      show roundHalfUp 0 = 0 from by apply roundHalfUp_eq_of <;> norm_num]
    rfl

/-- C8 (amended): `previousScore` is read from the persisted report store
once, at metrics construction time, before `finalize` overwrites that
store; it is 0 when no prior report exists or the prior report is
unreadable.  Running the orchestrator twice from an empty store yields
`previousScore = 0` on the first run, and on the second run
`previousScore` equals the quality score persisted by the first run whenever
the first run linted at least one package; if the first run linted no
packages its persisted score is NaN, which the `|| 0` fallback turns into
0 on the second run. -/
theorem c8_trend_previous_score (ps1 ps2 : List Package) (env1 env2 : LintEnv) :
    (runOnce ps1 env1 none).1.previousScore = JSNum.num 0
    ∧ (runQualityLint ps1 env1 (some none)).previousScore = JSNum.num 0
    ∧ (runOnce ps2 env2 (runOnce ps1 env1 none).2).1.previousScore =
        loadPreviousScore (some (some (runQualityLint ps1 env1 none)))
    ∧ (ps1 ≠ [] →
        (runOnce ps2 env2 (runOnce ps1 env1 none).2).1.previousScore =
          (runOnce ps1 env1 none).1.qualityScore) := by
  refine ⟨?_, ?_, ?_, ?_⟩
  · show (runQualityLint ps1 env1 none).previousScore = JSNum.num 0
    rw [runQualityLint_previousScore]
    rfl
  · rw [runQualityLint_previousScore]
    rfl
  · show (runQualityLint ps2 env2 (some (some (runQualityLint ps1 env1 none)))).previousScore = _
    rw [runQualityLint_previousScore]
  · intro h
    obtain ⟨q, hq⟩ := isRealIn_num_exists _ _ _ (run_score_isRealIn ps1 env1 none h)
    show (runQualityLint ps2 env2 (some (some (runQualityLint ps1 env1 none)))).previousScore =
      (runQualityLint ps1 env1 none).qualityScore
    rw [runQualityLint_previousScore, loadPreviousScore_report, hq, jsOr_num_zero]

theorem c8_trend_previous_score_witness :
    (runOnce [pkgLightW] envFail none).1.previousScore = JSNum.num 0
    ∧ (runOnce [] envFail (runOnce [pkgLightW] envFail none).2).1.previousScore =
        (runOnce [pkgLightW] envFail none).1.qualityScore :=
  ⟨(c8_trend_previous_score [pkgLightW] [] envFail envFail).1,
   (c8_trend_previous_score [pkgLightW] [] envFail envFail).2.2.2 (by decide)⟩

/-- C8 counterexample: from an empty store, a first run over an empty
workspace persists `qualityScore = NaN`; the second run then loads
`previousScore = 0`, not the quality score of the first run — so the claim as
stated fails for such a pair of runs. -/
theorem c8_counterexample :
    (runOnce [] envFail (runOnce [] envFail none).2).1.previousScore = JSNum.num 0
    ∧ (runOnce [] envFail none).1.qualityScore = JSNum.nan
    ∧ ¬((runOnce [] envFail (runOnce [] envFail none).2).1.previousScore =
        (runOnce [] envFail none).1.qualityScore) := by
  refine ⟨by decide, by decide, by decide⟩

/-- C4: categorization is total and deterministic — every package of a run
belongs to a tier exactly according to its additive weight: at least 4 is
heavy, at least 2 but below 4 is medium, below 2 is light; and every
package lands in one of the three tiers. -/
theorem c4_categorize_tiers (ps : List Package) (pkg : Package) (hmem : pkg ∈ ps) :
    totalWeight pkg = sizeWeight pkg + complexityWeight pkg + nameWeight pkg
    ∧ (pkg ∈ (categorizePackages ps).1 ↔ totalWeight pkg ≥ 4)
    ∧ (pkg ∈ (categorizePackages ps).2.1 ↔ 2 ≤ totalWeight pkg ∧ totalWeight pkg < 4)
    ∧ (pkg ∈ (categorizePackages ps).2.2 ↔ totalWeight pkg < 2)
    ∧ (pkg ∈ (categorizePackages ps).1 ∨ pkg ∈ (categorizePackages ps).2.1 ∨
        pkg ∈ (categorizePackages ps).2.2) := by
  refine ⟨rfl, ?_, ?_, ?_, ?_⟩
  · rw [mem_categorize_heavy]
    simp [hmem]
  · rw [mem_categorize_medium]
    simp [hmem]
  · rw [mem_categorize_light]
    simp [hmem]
  · by_cases w4 : totalWeight pkg ≥ 4
    · exact Or.inl ((mem_categorize_heavy pkg ps).mpr ⟨hmem, w4⟩)
    · by_cases w2 : 2 ≤ totalWeight pkg
      · exact Or.inr (Or.inl ((mem_categorize_medium pkg ps).mpr ⟨hmem, w2, by omega⟩))
      · exact Or.inr (Or.inr ((mem_categorize_light pkg ps).mpr ⟨hmem, by omega⟩))

/-- Boundary package of weight exactly 4 (size 1, typing 1, tests 1,
important name 1). -/
def pkgBoundary4 : Package :=
  { name := "acli", pkgPath := "packages/acli", lastModified := 0,
    hasTypescript := true, hasTests := true, isPrivate := false, size := 600000 }

/-- Boundary package of weight exactly 3. -/
def pkgBoundary3 : Package :=
  { name := "plain", pkgPath := "packages/plain", lastModified := 0,
    hasTypescript := true, hasTests := true, isPrivate := false, size := 600000 }

/-- Boundary package of weight exactly 1. -/
def pkgBoundary1 : Package :=
  { name := "tiny", pkgPath := "packages/tiny", lastModified := 0,
    hasTypescript := true, hasTests := false, isPrivate := false, size := 0 }

theorem c4_categorize_tiers_witness :
    totalWeight pkgBoundary4 = 4 ∧ totalWeight pkgBoundary3 = 3 ∧ totalWeight pkgBoundary1 = 1
    ∧ pkgBoundary4 ∈ (categorizePackages [pkgBoundary4, pkgBoundary3, pkgBoundary1]).1
    ∧ pkgBoundary3 ∈ (categorizePackages [pkgBoundary4, pkgBoundary3, pkgBoundary1]).2.1
    ∧ pkgBoundary1 ∈ (categorizePackages [pkgBoundary4, pkgBoundary3, pkgBoundary1]).2.2 :=
  ⟨by decide, by decide, by decide,
   ((c4_categorize_tiers [pkgBoundary4, pkgBoundary3, pkgBoundary1] pkgBoundary4
      (by decide)).2.1).mpr (by decide),
   ((c4_categorize_tiers [pkgBoundary4, pkgBoundary3, pkgBoundary1] pkgBoundary3
      (by decide)).2.2.1).mpr (by decide),
   ((c4_categorize_tiers [pkgBoundary4, pkgBoundary3, pkgBoundary1] pkgBoundary1
      (by decide)).2.2.2.1).mpr (by decide)⟩

/-- C9: a cache younger than the one-hour TTL whose content deserializes
is returned directly with no filesystem traversal; a deserialization
failure forces a fresh scan; and writing the cache then immediately
reading it back (age 0) returns the identical package set without
re-scanning — the second call ignores the filesystem entirely. -/
theorem c9_cache_round_trip (cache : Option CacheFile) (now : ℕ)
    (scanned scanned2 : List Package) (cf : CacheFile) :
    (∀ ps, cache = some cf → now - cf.mtime < 3600000 → cf.content = some ps →
        getLintablePackages cache now scanned = (ps, false, some cf))
    ∧ (cache = some cf → cf.content = none →
        getLintablePackages cache now scanned =
          (scanned, true, some { mtime := now, content := some scanned }))
    ∧ getLintablePackages (getLintablePackages none now scanned).2.2 now scanned2 =
        (scanned, false, some { mtime := now, content := some scanned }) := by
  refine ⟨?_, ?_, ?_⟩
  · intro ps hc hage hcont
    subst hc
    simp [getLintablePackages, hage, hcont]
  · intro hc hcont
    subst hc
    simp only [getLintablePackages, hcont]
    split_ifs <;> rfl
  · show getLintablePackages (some { mtime := now, content := some scanned }) now scanned2 = _
    simp [getLintablePackages, Nat.sub_self]

theorem c9_cache_round_trip_witness :
    getLintablePackages (some { mtime := 0, content := some [pkgLightW] }) 10 [] =
      ([pkgLightW], false, some { mtime := 0, content := some [pkgLightW] })
    ∧ getLintablePackages (some { mtime := 0, content := none }) 10 [] =
        ([], true, some { mtime := 10, content := some [] })
    ∧ getLintablePackages (getLintablePackages none 10 [pkgLightW]).2.2 10 [pkgMedW1] =
        ([pkgLightW], false, some { mtime := 10, content := some [pkgLightW] }) :=
  ⟨(c9_cache_round_trip (some { mtime := 0, content := some [pkgLightW] }) 10 [] []
      { mtime := 0, content := some [pkgLightW] }).1 [pkgLightW] rfl (by decide) rfl,
   (c9_cache_round_trip (some { mtime := 0, content := none }) 10 [] []
      { mtime := 0, content := none }).2.1 rfl rfl,
   (c9_cache_round_trip none 10 [pkgLightW] [pkgMedW1]
      { mtime := 0, content := none }).2.2⟩

theorem parseFold_bound (lines : List (List Char)) (acc : ℕ × ℕ) :
    (lines.foldl
      (fun acc line =>
        let errors := if listInf (String.toList ("error")) line then acc.1 + 1 else acc.1
        let warnings := if listInf (String.toList ("warning")) line then acc.2 + 1 else acc.2
        (errors, warnings)) acc).1 ≤ acc.1 + lines.length
    ∧ (lines.foldl
      (fun acc line =>
        let errors := if listInf (String.toList ("error")) line then acc.1 + 1 else acc.1
        let warnings := if listInf (String.toList ("warning")) line then acc.2 + 1 else acc.2
        (errors, warnings)) acc).2 ≤ acc.2 + lines.length := by
  induction lines generalizing acc with
  | nil => simp
  | cons l ls ih =>
      rw [List.foldl_cons]
      refine ⟨le_trans (ih _).1 ?_, le_trans (ih _).2 ?_⟩
      · dsimp only
        simp only [List.length_cons]
        split <;> omega
      · dsimp only
        simp only [List.length_cons]
        split <;> omega

/-- C10: the output parser is a case-sensitive per-line substring test
with at most one increment per counter per line: a summary line
containing both tokens bumps both counters exactly once, repeated tokens
on one line still bump once, a capitalized token bumps neither, and each
counter is bounded by the number of lines. -/
theorem c10_parse_per_line :
    parseESLintOutput ("2 errors, 3 warnings") = (1, 1)
    ∧ parseESLintOutput ("error error error") = (1, 0)
    ∧ parseESLintOutput ("Error") = (0, 0)
    ∧ ∀ output : String,
        (parseESLintOutput output).1 ≤ (splitOnNl output.toList).length
        ∧ (parseESLintOutput output).2 ≤ (splitOnNl output.toList).length := by
  refine ⟨by decide, by decide, by decide, ?_⟩
  intro output
  have h := parseFold_bound (splitOnNl output.toList) (0, 0)
  simpa [parseESLintOutput] using h

theorem checkTypeScript_name (r : Except String Unit) :
    (checkTypeScript r).name = "TypeScript" := by cases r <;> rfl

theorem checkSecurity_name (r : Except String ℕ) :
    (checkSecurity r).name = "Security Scan" := by cases r <;> rfl

theorem checkFormatting_name (r : Except String Unit) :
    (checkFormatting r).name = "Formatting" := by cases r <;> rfl

theorem checkTodoComments_name (r : Except String ℕ) :
    (checkTodoComments r).name = "TODO Comments" := by cases r <;> rfl

theorem checkDependencies_name (r : Except String Unit) :
    (checkDependencies r).name = "Dependencies" := by cases r <;> rfl

theorem checkBuild_name (r : Except String Unit) :
    (checkBuild r).name = "Build" := by cases r <;> rfl

theorem checkLintQuality_no_build (r : Except String LintReport) :
    "Build" ∉ (checkLintQuality r).map GateCheck.name := by
  cases r with
  | ok report => simp [checkLintQuality]
  | error msg => simp [checkLintQuality]

theorem calculateScore_num (cs : List GateCheck) (hcs : cs ≠ []) :
    calculateScore cs =
      JSNum.num ((roundHalfUp (100 * ((cs.filter (fun c => c.passed)).length : ℚ) /
        (cs.length : ℚ)) : ℤ) : ℚ) := by
  have hlen : ((cs.length : ℕ) : ℚ) ≠ 0 := by
    have h0 : cs.length ≠ 0 := by
      cases cs with
      | nil => cases hcs rfl
      | cons a t => simp
    exact_mod_cast h0
  rw [calculateScore]
  simp only [jsDiv, jsMul, jsRound, if_neg hlen]
  rw [show ((cs.filter (fun c => c.passed)).length : ℚ) / (cs.length : ℚ) * 100 =
      100 * ((cs.filter (fun c => c.passed)).length : ℚ) / (cs.length : ℚ) from by ring]

theorem calculateScore_threshold (cs : List GateCheck) (hcs : cs ≠ []) :
    (100 * (cs.filter (fun c => c.passed)).length = 85 * cs.length →
        jsGe (calculateScore cs) (JSNum.num 85) = true)
    ∧ (100 * (cs.filter (fun c => c.passed)).length = 84 * cs.length →
        jsGe (calculateScore cs) (JSNum.num 85) = false) := by
  have hlen : ((cs.length : ℕ) : ℚ) ≠ 0 := by
    have h0 : cs.length ≠ 0 := by
      cases cs with
      | nil => cases hcs rfl
      | cons a t => simp
    exact_mod_cast h0
  constructor
  · intro h
    have hq : (100 : ℚ) * ((cs.filter (fun c => c.passed)).length : ℚ) =
        85 * (cs.length : ℚ) := by exact_mod_cast h
    have hratio : 100 * ((cs.filter (fun c => c.passed)).length : ℚ) / (cs.length : ℚ) = 85 := by
      field_simp
      linarith
    rw [calculateScore_num cs hcs, hratio,
      show roundHalfUp 85 = 85 from by apply roundHalfUp_eq_of <;> norm_num]
    simp [jsGe]
  · intro h
    have hq : (100 : ℚ) * ((cs.filter (fun c => c.passed)).length : ℚ) =
        84 * (cs.length : ℚ) := by exact_mod_cast h
    have hratio : 100 * ((cs.filter (fun c => c.passed)).length : ℚ) / (cs.length : ℚ) = 84 := by
      field_simp
      linarith
    rw [calculateScore_num cs hcs, hratio,
      show roundHalfUp 84 = 84 from by apply roundHalfUp_eq_of <;> norm_num]
    simp [jsGe]
    norm_num

/-- C3: the gate score is `round(100 * passedChecks / totalChecks)` over
exactly the accumulated check list — the build check enters that list if
and only if the include-build flag is set — and the verdict is
`score >= 85`; over any nonempty check list, exactly 85 percent passing
yields a passing verdict and exactly 84 percent a failing one. -/
theorem c3_gate_score (o : GateOutcomes) (b : Bool) (cs : List GateCheck) (hcs : cs ≠ []) :
    ("Build" ∈ (gateChecks o b).map GateCheck.name ↔ b = true)
    ∧ (runAllChecks o b).score = calculateScore (gateChecks o b)
    ∧ (runAllChecks o b).passed = jsGe (calculateScore (gateChecks o b)) (JSNum.num 85)
    ∧ calculateScore cs =
        JSNum.num ((roundHalfUp (100 * ((cs.filter (fun c => c.passed)).length : ℚ) /
          (cs.length : ℚ)) : ℤ) : ℚ)
    ∧ (100 * (cs.filter (fun c => c.passed)).length = 85 * cs.length →
        jsGe (calculateScore cs) (JSNum.num 85) = true)
    ∧ (100 * (cs.filter (fun c => c.passed)).length = 84 * cs.length →
        jsGe (calculateScore cs) (JSNum.num 85) = false) := by
  refine ⟨?_, rfl, rfl, calculateScore_num cs hcs, (calculateScore_threshold cs hcs).1,
    (calculateScore_threshold cs hcs).2⟩
  cases b with
  | true =>
      simp only [iff_true]
      rw [gateChecks]
      simp [checkBuild_name]
  | false =>
      simp only [Bool.false_eq_true, iff_false]
      rw [gateChecks]
      simp [List.map_append, checkTypeScript_name, checkSecurity_name, checkFormatting_name,
        checkTodoComments_name, checkDependencies_name, checkLintQuality_no_build]
      intro x hx hname
      exact checkLintQuality_no_build o.lint
        (by rw [← hname]; exact List.mem_map_of_mem GateCheck.name hx)

/-- Gate outcomes in which every external process succeeds cleanly. -/
def gateOutW : GateOutcomes :=
  { lint := Except.ok { qualityScore := JSNum.num 100, errors := 0, warnings := 0 }
    typescript := Except.ok ()
    security := Except.ok 0
    formatting := Except.ok ()
    todo := Except.ok 0
    deps := Except.ok ()
    build := Except.ok () }

/-- A passing check fixture. -/
def passCheckW : GateCheck :=
  { name := "p", passed := true, message := "", score := JSNum.num 0 }

/-- A failing check fixture. -/
def failCheckW : GateCheck :=
  { name := "f", passed := false, message := "", score := JSNum.num 0 }

theorem c3_gate_score_witness :
    ("Build" ∈ (gateChecks gateOutW true).map GateCheck.name ↔ true = true)
    ∧ jsGe (calculateScore (List.replicate 17 passCheckW ++ List.replicate 3 failCheckW))
        (JSNum.num 85) = true
    ∧ jsGe (calculateScore (List.replicate 21 passCheckW ++ List.replicate 4 failCheckW))
        (JSNum.num 85) = false :=
  ⟨(c3_gate_score gateOutW true (List.replicate 17 passCheckW ++ List.replicate 3 failCheckW)
      (by decide)).1,
   (c3_gate_score gateOutW true (List.replicate 17 passCheckW ++ List.replicate 3 failCheckW)
      (by decide)).2.2.2.2.1 (by decide),
   (c3_gate_score gateOutW true (List.replicate 21 passCheckW ++ List.replicate 4 failCheckW)
      (by decide)).2.2.2.2.2 (by decide)⟩

/-- C7 (amended): an exception thrown inside any individual gate checker
is caught there and converted into a GateCheck — it never escapes, and the
gate still assembles its full check list.  The lint-quality and security
checkers record a failed check whose message carries the exception detail;
the TypeScript, formatting and dependency checkers record a failed check
with a fixed message (the dependency message depending only on whether the
detail mentions the audit); the TODO-comment checker records a PASSING
check with a fixed message. -/
theorem c7_gate_catch_behavior (msg : String) (o : GateOutcomes) (b : Bool) :
    checkLintQuality (Except.error msg) =
      [{ name := "Lint Quality", passed := false,
         message := "Failed to check lint quality: " ++ msg, score := JSNum.num 0 }]
    ∧ checkTypeScript (Except.error msg) =
        { name := "TypeScript", passed := false,
          message := "TypeScript compilation errors detected", score := JSNum.num 0 }
    ∧ checkSecurity (Except.error msg) =
        { name := "Security Scan", passed := false,
          message := "Security check failed: " ++ msg, score := JSNum.num 0 }
    ∧ checkFormatting (Except.error msg) =
        { name := "Formatting", passed := false,
          message := "Code formatting issues detected", score := JSNum.num 0 }
    ∧ checkTodoComments (Except.error msg) =
        { name := "TODO Comments", passed := true,
          message := "Unable to check TODO comments", score := JSNum.num 0 }
    ∧ checkDependencies (Except.error msg) =
        { name := "Dependencies", passed := false,
          message :=
            if jsIncludes msg ("audit") then ("Dependency vulnerabilities detected")
            else ("Dependency check failed"),
          score := JSNum.num 0 }
    ∧ (runAllChecks o b).checks.length =
        (checkLintQuality o.lint).length + 5 + (if b then 1 else 0) := by
  refine ⟨rfl, rfl, rfl, rfl, rfl, rfl, ?_⟩
  show (gateChecks o b).length = _
  rw [gateChecks]
  simp only [List.length_append, List.length_cons]
  cases b <;> simp

/-- C7 counterexample: the TODO-comment checker converts a thrown
exception into a check with `passed = true` and a fixed message that does
not carry the exception detail, contradicting the claim that every
checker yields a failed check carrying the detail. -/
theorem c7_counterexample :
    (checkTodoComments (Except.error ("boom"))).passed = true
    ∧ (checkTodoComments (Except.error ("boom"))).message = "Unable to check TODO comments" :=
  ⟨rfl, rfl⟩
